import Mathlib

/-!
Verification of the kipoi data-loading core (`kipoi/data.py`): the nested-array
data model, the collation engine, the loading-contract hierarchy
(`PreloadedDataset`, `Dataset`, iterator/generator variants) and the dynamic
loader/validator `get_dataloader_factory`.

Nested python structures (lists / dicts of numpy arrays) are embedded as a
single inductive type in which list and dict nodes are cons-encoded; numpy
arrays are rose trees whose top-level row list is the leading axis.
-/

/-- A numpy array: either a rank-0 scalar or an array whose `rows` list is the
leading axis (each row is itself an array of one rank lower). -/
inductive Arr where
  | scalar (v : Int)
  | tensor (rows : List Arr)

/-- A nested python data structure of numpy arrays, as handled by
`kipoi.data`: leaves are arrays, inner nodes are lists or dicts.  Lists and
dicts are cons-encoded: `lcons h t` is the list with first element `h` and
remaining elements `t` (ending with `lnil`), `dcons k v t` is the dict whose
first key is `k` with value `v` and remaining entries `t` (ending with
`dnil`). -/
inductive DataStruct where
  | arr (a : Arr)
  | lnil
  | lcons (head tail : DataStruct)
  | dnil
  | dcons (key : String) (value tail : DataStruct)

/-- Error taxonomy of the spec (section 7): each name tags the `ValueError` /
`AssertionError` the python code raises at the corresponding check. -/
inductive KipoiError where
  | StructuralMismatch
  | DimensionMismatch
  | UnknownVariant (tpe : String)
  | ArgumentMismatch (actual declared : List String)
  | ContractMismatch (tpe : String)
deriving DecidableEq

/-- Modelled from the spec: `kipoi.data_utils.get_dataset_lens` (imported by
`data.py` but not part of this repository snapshot), the Shape/Length
Inspector — "walks a nested container of arrays and reports per-array
first-dimension length"; in strict (`require_numpy`) mode it "fails with a
`StructuralMismatch` condition if leaves are not arrays" (a rank-0 scalar has
no leading dimension), modelled as `none`. -/
def get_dataset_lens : DataStruct → Option (List Nat)
  | .arr (.tensor rows) => some [rows.length]
  | .arr (.scalar _) => none
  | .lnil => some []
  | .dnil => some []
  | .lcons h t => do pure ((← get_dataset_lens h) ++ (← get_dataset_lens t))
  | .dcons _ v t => do pure ((← get_dataset_lens v) ++ (← get_dataset_lens t))

/-- Modelled from the spec: `kipoi.data_utils.get_dataset_item` (not in this
snapshot), Indexed extraction — "given a full preloaded structure and an
integer index, returns the single-sample nested structure obtained by slicing
every leaf at that index"; an out-of-range index or a scalar leaf fails
(python `IndexError`), modelled as `none`. -/
def get_dataset_item : DataStruct → Nat → Option DataStruct
  | .arr (.tensor rows), i => (rows[i]?).map .arr
  | .arr (.scalar _), _ => none
  | .lnil, _ => some .lnil
  | .dnil, _ => some .dnil
  | .lcons h t, i => do pure (.lcons (← get_dataset_item h i) (← get_dataset_item t i))
  | .dcons k v t, i => do pure (.dcons k (← get_dataset_item v i) (← get_dataset_item t i))

/-- `x[None]` on every leaf: wrap each leaf array into a fresh leading axis of
length 1.  `np.stack xs = np.concatenate [x[None] for x in xs]`, which is how
sample collation is expressed below. -/
def unsqueeze : DataStruct → DataStruct
  | .arr a => .arr (.tensor [a])
  | .lnil => .lnil
  | .dnil => .dnil
  | .lcons h t => .lcons (unsqueeze h) (unsqueeze t)
  | .dcons k v t => .dcons k (unsqueeze v) (unsqueeze t)

/-- Modelled from the spec: binary batch concatenation over two nested
structures — "concatenating each corresponding leaf along the existing leading
dimension"; "raises a `StructuralMismatch` condition if leaf-path sets differ
between inputs, or if a leaf is not array-like", modelled as `none`. -/
def dconcat2 : DataStruct → DataStruct → Option DataStruct
  | .arr (.tensor r1), .arr (.tensor r2) => some (.arr (.tensor (r1 ++ r2)))
  | .lnil, .lnil => some .lnil
  | .dnil, .dnil => some .dnil
  | .lcons h1 t1, .lcons h2 t2 =>
      do pure (.lcons (← dconcat2 h1 h2) (← dconcat2 t1 t2))
  | .dcons k1 v1 t1, .dcons k2 v2 t2 =>
      if k1 = k2 then do pure (.dcons k1 (← dconcat2 v1 v2) (← dconcat2 t1 t2)) else none
  | _, _ => none

/-- Modelled from the spec: `kipoi.data_utils.numpy_collate_concat` (not in
this snapshot), Batch concatenation — "given an ordered sequence of M batches,
produces one aggregate by concatenating each corresponding leaf along the
existing leading dimension (order preserved)".  Expressed as a fold of the
binary concatenation; the empty sequence has no aggregate (`none`). -/
def numpy_collate_concat : List DataStruct → Option DataStruct
  | [] => none
  | b :: bs => bs.foldlM dconcat2 b

/-- Modelled from the spec: `kipoi.data_utils.numpy_collate` (not in this
snapshot), Sample collation — "given an ordered sequence of N samples,
produces one batch by stacking each corresponding leaf into a new array with
leading dimension N (order preserved, index i of input i)": stacking is
concatenation of the unsqueezed samples. -/
def numpy_collate (samples : List DataStruct) : Option DataStruct :=
  numpy_collate_concat (samples.map unsqueeze)

/-- Dict lookup `x[key]` on a top-level dict node; `none` models `KeyError`
(or a non-dict subject). -/
def getField : DataStruct → String → Option DataStruct
  | .dcons k v t, key => if k = key then some v else getField t key
  | _, _ => none

/-- Chunking with an explicit fuel (the fuel is the length of the list, see
`chunkList`): successive groups of `bs` elements, the final group possibly
smaller. -/
def chunkFuel {α : Type} : Nat → Nat → List α → List (List α)
  | 0, _, _ => []
  | _ + 1, _, [] => []
  | fuel + 1, bs, x :: xs => (x :: xs).take bs :: chunkFuel fuel bs ((x :: xs).drop bs)

/-- Split a list into successive chunks of size `bs`; the final chunk may be
smaller.  This is the index grouping of the external batching service and of
`batch_gen` (greedy collection of up to `batch_size` consecutive elements). -/
def chunkList {α : Type} (bs : Nat) (xs : List α) : List (List α) :=
  if bs = 0 then [] else chunkFuel xs.length bs xs

/-- Modelled from the spec: the index batching of the external
`DataLoader` service (`kipoi.external.torch.data`, not in this snapshot) at
`shuffle=False` — "batches are yielded in index order"; "optional drop of a
final undersized batch" when `drop_last` is set. -/
def batchIndices (n bs : Nat) (drop_last : Bool) : List (List Nat) :=
  let chunks := chunkList bs (List.range n)
  if drop_last then chunks.filter (fun c => c.length == bs) else chunks

/-- Modelled from the spec: `kipoi.data_utils.iterable_cycle` (not in this
snapshot) — "the underlying batch iteration restarts indefinitely and never
terminates (infinite, restartable by construction)".  The infinite stream is
embedded as its k-th element; over an empty iterable nothing is ever
yielded (`none`). -/
def iterable_cycle (l : List DataStruct) (k : Nat) : Option DataStruct :=
  if l.isEmpty then none else l[k % l.length]?

/-! ### Analysis definitions (used to state the theorems) -/

/-- Every leaf of the structure is an array whose leading dimension is `n`
(the uniformity invariant a preloaded dataset enforces at construction). -/
def uniform (n : Nat) : DataStruct → Bool
  | .arr (.tensor rows) => rows.length == n
  | .arr (.scalar _) => false
  | .lnil => true
  | .dnil => true
  | .lcons h t => uniform n h && uniform n t
  | .dcons _ v t => uniform n v && uniform n t

/-- Restrict every leaf array to the rows named by `idxs` (in that order);
out-of-range indices are skipped, scalar leaves are left alone.  A batch that
covers indices `idxs` of a preloaded structure `s` is exactly
`selectRows idxs s`. -/
def selectRows (idxs : List Nat) : DataStruct → DataStruct
  | .arr (.tensor rows) => .arr (.tensor (idxs.filterMap (fun i => rows[i]?)))
  | .arr (.scalar v) => .arr (.scalar v)
  | .lnil => .lnil
  | .dnil => .dnil
  | .lcons h t => .lcons (selectRows idxs h) (selectRows idxs t)
  | .dcons k v t => .dcons k (selectRows idxs v) (selectRows idxs t)

/-- Total companion of `get_dataset_item`: the sample at index `i` (leaves
default to `scalar 0` out of range; under `uniform` and `i < n` this agrees
with `get_dataset_item`). -/
def itemAt : DataStruct → Nat → DataStruct
  | .arr (.tensor rows), i => .arr (rows.getD i (.scalar 0))
  | .arr (.scalar v), _ => .arr (.scalar v)
  | .lnil, _ => .lnil
  | .dnil, _ => .dnil
  | .lcons h t, i => .lcons (itemAt h i) (itemAt t i)
  | .dcons k v t, i => .dcons k (itemAt v i) (itemAt t i)

/-! ### PreloadedDataset (`kipoi/data.py` lines 76-155) -/

/-- A constructed `PreloadedDataset` instance: `data` is the full nested
structure returned by the bound production function, `n` the common leading
dimension (`self.n`). -/
structure PreloadedDataset where
  data : DataStruct
  n : Nat

/-- `PreloadedDataset.__init__`: `self.data = data_fn(...)` is the structure
the production function returned (passed here directly, the call itself being
opaque python); then `lens = get_dataset_lens(self.data, require_numpy=True)`,
`assert len(set(lens)) == 1` (the spec's `DimensionMismatch`), and
`self.n = lens[0]`. -/
def PreloadedDataset.init (data : DataStruct) : Except KipoiError PreloadedDataset :=
  match get_dataset_lens data with
  | none => .error .StructuralMismatch
  | some lens =>
    if lens.dedup.length == 1 then .ok ⟨data, lens.headD 0⟩
    else .error .DimensionMismatch

/-- `PreloadedDataset.__len__`: `return self.n`. -/
def PreloadedDataset.len (pd : PreloadedDataset) : Nat := pd.n

/-- `PreloadedDataset.__getitem__`: `return get_dataset_item(self.data, index)`. -/
def PreloadedDataset.getitem (pd : PreloadedDataset) (index : Nat) : Option DataStruct :=
  get_dataset_item pd.data index

/-- `PreloadedDataset.batch_iter` (at `shuffle=False`): iterate the external
`DataLoader` over `self` with `collate_fn=numpy_collate`, i.e. collate the
`__getitem__` samples of each index batch; the whole iteration fails (`none`)
if any lookup or collation fails. -/
def PreloadedDataset.batch_iter (pd : PreloadedDataset) (batch_size : Nat)
    (drop_last : Bool) : Option (List DataStruct) :=
  (batchIndices pd.n batch_size drop_last).mapM
    (fun idxs => idxs.mapM (fun i => get_dataset_item pd.data i) >>= numpy_collate)

/-- `PreloadedDataset.load_all(**kwargs)`: `return self.data` — the kwargs are
ignored (they are modelled as an opaque association list). -/
def PreloadedDataset.load_all (pd : PreloadedDataset)
    (_kwargs : List (String × String)) : DataStruct := pd.data

/-- The inherited `BaseDataLoader.load_all` path applied to a preloaded
dataset: `numpy_collate_concat([x for x in self.batch_iter(**kwargs)])`. -/
def PreloadedDataset.base_load_all (pd : PreloadedDataset) (batch_size : Nat)
    (drop_last : Bool) : Option DataStruct :=
  pd.batch_iter batch_size drop_last >>= numpy_collate_concat

/-! ### Dataset (`kipoi/data.py` lines 158-232) -/

/-- An indexed dataset: the abstract `__len__` / `__getitem__` pair a subclass
supplies. -/
structure Dataset where
  len : Nat
  getitem : Nat → DataStruct

/-- `Dataset.batch_iter` (at `shuffle=False`, `num_workers=0`): iterate the
external `DataLoader` with `collate_fn=numpy_collate` over the index batches. -/
def Dataset.batch_iter (d : Dataset) (batch_size : Nat) (drop_last : Bool) :
    Option (List DataStruct) :=
  (batchIndices d.len batch_size drop_last).mapM
    (fun idxs => numpy_collate (idxs.map d.getitem))

/-- `Dataset.load_all(batch_size)`: `numpy_collate_concat([x for x in
self.batch_iter(batch_size)])`. -/
def Dataset.load_all (d : Dataset) (batch_size : Nat) : Option DataStruct :=
  d.batch_iter batch_size false >>= numpy_collate_concat

/-! ### batch_train_iter (`kipoi/data.py` lines 32-45) -/

/-- The projection `(x["inputs"], x["targets"])` applied to one batch;
`none` models the `KeyError` on a batch missing either key. -/
def trainPair (x : DataStruct) : Option (DataStruct × DataStruct) := do
  pure (← getField x "inputs", ← getField x "targets")

/-- `BaseDataLoader.batch_train_iter(cycle=True, ...)`: the k-th element of
`((x["inputs"], x["targets"]) for x in iterable_cycle(self._batch_iterable(...)))`,
where `batches` is one full pass of the underlying batch iterable. -/
def batch_train_iter_cycle (batches : List DataStruct) (k : Nat) :
    Option (DataStruct × DataStruct) :=
  (iterable_cycle batches k).bind trainPair

/-- `BaseDataLoader.batch_train_iter(cycle=False, ...)`: the finite stream
`((x["inputs"], x["targets"]) for x in self.batch_iter(...))`. -/
def batch_train_iter_nocycle (batches : List DataStruct) :
    List (Option (DataStruct × DataStruct)) :=
  batches.map trainPair

/-! ### Streaming variants (`kipoi/data.py` lines 280-382)

A python iterator instance is embedded as the list of elements it has left to
yield; `batch_iter` is modelled at the point where the iterator it returned
has been fully consumed, so it returns both the yielded batches and the
instance state afterwards. -/

/-- A `SampleIterator` instance: `remaining` is the stream of samples the
instance itself has left to yield. -/
structure SampleIteratorState where
  remaining : List DataStruct

/-- `SampleIterator.batch_iter`: `batch_gen(iter(self), batch_size)` —
`iter(self)` is the instance itself, so consuming the returned generator
consumes the instance.  `batch_gen` greedily collects up to `batch_size`
consecutive samples and collates each group (the final partial group is a
smaller batch). -/
def SampleIteratorState.batch_iter (st : SampleIteratorState) (batch_size : Nat) :
    List (Option DataStruct) × SampleIteratorState :=
  let chunks := chunkList batch_size st.remaining
  (chunks.map numpy_collate, ⟨st.remaining.drop chunks.flatten.length⟩)

/-- A `BatchIterator` instance: `remaining` is the stream of pre-built batches
the instance itself has left to yield. -/
structure BatchIteratorState where
  remaining : List DataStruct

/-- `BatchIterator.batch_iter`: `return iter(self)` — the instance itself;
consuming the result consumes the instance. -/
def BatchIteratorState.batch_iter (st : BatchIteratorState) :
    List DataStruct × BatchIteratorState :=
  (st.remaining, ⟨[]⟩)

/-- A `SampleGenerator` instance: `__init__` stores the construction
arguments, `__iter__` calls the bound `generator_fn` on them anew each time,
so the instance holds the (pure) production function with its arguments
already bound. -/
structure SampleGeneratorState where
  generator_fn : Unit → List DataStruct

/-- `SampleGenerator.batch_iter`: `batch_gen(iter(self), batch_size)` where
`__iter__` returns `self._get_generator_fn()(*self.args, **self.kwargs)` — a
fresh stream per call; the instance state is unchanged. -/
def SampleGeneratorState.batch_iter (st : SampleGeneratorState) (batch_size : Nat) :
    List (Option DataStruct) × SampleGeneratorState :=
  ((chunkList batch_size (st.generator_fn ())).map numpy_collate, st)

/-- A `BatchGenerator` instance, analogous to `SampleGeneratorState`. -/
structure BatchGeneratorState where
  generator_fn : Unit → List DataStruct

/-- `BatchGenerator.batch_iter`: `return iter(self)` where `__iter__` invokes
the bound production function anew — a fresh stream of pre-built batches per
call; the instance state is unchanged. -/
def BatchGeneratorState.batch_iter (st : BatchGeneratorState) :
    List DataStruct × BatchGeneratorState :=
  (st.generator_fn (), st)

/-! ### Dynamic loader/validator (`kipoi/data.py` lines 386-508) -/

/-- `AVAILABLE_DATALOADERS` (lines 500-506): the known contract-variant
names, keys of the module-level dict. -/
def AVAILABLE_DATALOADERS : List String :=
  ["PreloadedDataset", "Dataset", "BatchDataset", "SampleIterator",
   "SampleGenerator", "BatchIterator", "BatchGenerator"]

/-- `DATALOADERS_AS_FUNCTIONS` (line 508): the function-derived variants. -/
def DATALOADERS_AS_FUNCTIONS : List String :=
  ["PreloadedDataset", "SampleGenerator", "BatchGenerator"]

/-- The fields of the parsed `dataloader.yaml` that the validation steps of
`get_dataloader_factory` consult: `dl.type` and the keys of `dl.args`
(document parsing itself is an external collaborator). -/
structure DataLoaderDescription where
  type : String
  args : List String

/-- The resolved candidate implementation (`CustomDataLoader`), described by
what the validation inspects.  `argNames` is `getargs(CustomDataLoader)`
(modelled from the spec: `kipoi.utils.getargs` is not in this snapshot — "the
implementation's actual parameter-name set"); `isFunction` is
`isinstance(CustomDataLoader, types.FunctionType)`; `baseClasses` names the
contract classes it is a subclass of (`issubclass`). -/
structure CustomLoaderCandidate where
  argNames : List String
  isFunction : Bool
  baseClasses : List String

/-- Python set equality of two name lists (`set(a) == set(b)`). -/
def setEq (a b : List String) : Bool :=
  a.all (fun x => b.contains x) && b.all (fun x => a.contains x)

/-- The class value `get_dataloader_factory` returns: the validated candidate
(adapted via the variant's `from_fn` binding when function-derived) with the
specification metadata bound onto it.  No instance is created. -/
structure BoundLoader where
  candidate : CustomLoaderCandidate
  adapted_via_from_fn : Bool
  type : String
  args : List String

/-- The validation and binding portion of `get_dataloader_factory` (lines
452-497), applied to the already-resolved description and candidate (pulling
and parsing are external collaborators).  In source order: the variant name
must be in `AVAILABLE_DATALOADERS`; `getargs(CustomDataLoader)` must equal
`set(dl.args.keys())` (the raised error message carries both sets); a
function-derived variant requires a plain function and is adapted through
`from_fn`, any other variant requires a subclass of the declared contract
class.  The bound class is returned; no instance is constructed. -/
def get_dataloader_factory (dl : DataLoaderDescription)
    (c : CustomLoaderCandidate) : Except KipoiError BoundLoader :=
  if ¬ AVAILABLE_DATALOADERS.contains dl.type then
    .error (.UnknownVariant dl.type)
  else if ¬ setEq c.argNames dl.args then
    .error (.ArgumentMismatch c.argNames dl.args)
  else if DATALOADERS_AS_FUNCTIONS.contains dl.type then
    if c.isFunction then .ok ⟨c, true, dl.type, dl.args⟩
    else .error (.ContractMismatch dl.type)
  else if c.baseClasses.contains dl.type then
    .ok ⟨c, false, dl.type, dl.args⟩
  else .error (.ContractMismatch dl.type)

/-! ### Class-attribute mutation (`from_fn`, metadata binding)

`from_fn` assigns `cls.data_fn` / `cls.generator_fn` on the class object
itself and returns that same class; `get_dataloader_factory` likewise assigns
the specification metadata as attributes of the resolved class.  To express
the sharing, class objects live on an explicit heap (a list of attribute
records indexed by position) and operations return the reference they were
given. -/

/-- The mutable class-level attributes touched by `from_fn` and by the
metadata binding in `get_dataloader_factory`.  Functions are identified by an
id. -/
structure PyClassObj where
  data_fn : Option Nat := none
  tpe : Option String := none
  args : Option (List String) := none
  info : Option Nat := none

instance : Inhabited PyClassObj := ⟨{}⟩

/-- A heap of class objects; a class reference is an index into it. -/
abbrev ClassHeap := List PyClassObj

/-- `from_fn(cls, data_fn)`: `cls.data_fn = staticmethod(data_fn); return cls`
— mutates the class object in place and returns the same reference. -/
def from_fn (h : ClassHeap) (cls fnId : Nat) : ClassHeap × Nat :=
  (h.set cls { h.getD cls {} with data_fn := some fnId }, cls)

/-- The specification metadata bound by `get_dataloader_factory`. -/
structure DLMeta where
  tpe : String
  args : List String
  info : Nat

/-- Lines 475-495: `CustomDataLoader.type = dl.type`, `.args = dl.args`,
`.info = dl.info`, ... — assignments onto the shared class object; the same
reference is returned. -/
def bind_metadata (h : ClassHeap) (cls : Nat) (m : DLMeta) : ClassHeap × Nat :=
  (h.set cls { h.getD cls {} with
                tpe := some m.tpe
                args := some m.args
                info := some m.info }, cls)

/-- One dynamic load of a function-derived variant resolving to class `cls`
(for a fixed variant name, `AVAILABLE_DATALOADERS[dl.type]` is the same class
object on every load): adapt via `from_fn`, then bind the metadata. -/
def load_function_variant (h : ClassHeap) (cls fnId : Nat) (m : DLMeta) :
    ClassHeap × Nat :=
  let r1 := from_fn h cls fnId
  bind_metadata r1.1 r1.2 m

/-! ### `PreloadedDataset.from_data` (`kipoi/data.py` lines 91-93) -/

/-- The attribute names defined on `BaseDataLoader` (lines 25-61). -/
def BaseDataLoader_attrs : List String :=
  ["batch_iter", "batch_train_iter", "batch_predict_iter", "load_all"]

/-- The attribute names reachable on the class `PreloadedDataset`: its own
class body (lines 76-155) plus the inherited `BaseDataLoader` attributes. -/
def PreloadedDataset_attrs : List String :=
  ["data_fn", "from_fn", "from_data", "_get_data_fn", "__init__", "__len__",
   "__getitem__", "_batch_iterable", "batch_iter", "load_all"]
  ++ BaseDataLoader_attrs

/-- `PreloadedDataset.from_data(data)`: `return cls.from_data_fn(lambda: data)()`.
The body first looks up the attribute `from_data_fn` on the class; no
attribute of that name is defined anywhere on the class (the binder defined at
line 84 is named `from_fn`), so the branch in which the lookup succeeds is
unreachable — witnessed here by `absurd` — and the call raises
`AttributeError`. -/
def PreloadedDataset.from_data (_data : DataStruct) : Except String PreloadedDataset :=
  if h : PreloadedDataset_attrs.contains "from_data_fn" = true then
    absurd h (by decide)
  else .error "AttributeError: from_data_fn"

/-! ### Helper lemmas -/

theorem chunkFuel_flatten {α : Type} (fuel bs : Nat) (xs : List α)
    (hbs : 0 < bs) (hfuel : xs.length ≤ fuel) :
    (chunkFuel fuel bs xs).flatten = xs := by
  induction fuel generalizing xs with
  | zero =>
    cases xs with
    | nil => rfl
    | cons x xs => simp at hfuel
  | succ fuel ih =>
    cases xs with
    | nil => rfl
    | cons x xs =>
      simp only [chunkFuel, List.flatten_cons]
      rw [ih ((x :: xs).drop bs)
        (by simp only [List.length_drop, List.length_cons] at hfuel ⊢; omega)]
      exact List.take_append_drop _ _

theorem chunkList_flatten {α : Type} (bs : Nat) (xs : List α) (hbs : 0 < bs) :
    (chunkList bs xs).flatten = xs := by
  unfold chunkList
  rw [if_neg (Nat.pos_iff_ne_zero.mp hbs)]
  exact chunkFuel_flatten _ _ _ hbs le_rfl

theorem chunkFuel_mem_subset {α : Type} {fuel bs : Nat} {xs c : List α}
    (hc : c ∈ chunkFuel fuel bs xs) : c ⊆ xs := by
  induction fuel generalizing xs with
  | zero => simp [chunkFuel] at hc
  | succ fuel ih =>
    cases xs with
    | nil => simp [chunkFuel] at hc
    | cons x xs =>
      simp only [chunkFuel, List.mem_cons] at hc
      rcases hc with h | h
      · exact h ▸ List.take_subset _ _
      · exact fun a ha => List.drop_subset _ _ (ih h ha)

theorem chunkFuel_mem_ne_nil {α : Type} {fuel bs : Nat} {xs c : List α}
    (hbs : 0 < bs) (hc : c ∈ chunkFuel fuel bs xs) : c ≠ [] := by
  induction fuel generalizing xs with
  | zero => simp [chunkFuel] at hc
  | succ fuel ih =>
    cases xs with
    | nil => simp [chunkFuel] at hc
    | cons x xs =>
      simp only [chunkFuel, List.mem_cons] at hc
      rcases hc with h | h
      · subst h
        cases bs with
        | zero => exact absurd hbs (by simp)
        | succ m => simp
      · exact ih h

theorem chunkFuel_ne_nil {α : Type} {fuel bs : Nat} {xs : List α}
    (hxs : xs ≠ []) (hfuel : 0 < fuel) : chunkFuel fuel bs xs ≠ [] := by
  cases fuel with
  | zero => exact absurd hfuel (by simp)
  | succ fuel =>
    cases xs with
    | nil => exact absurd rfl hxs
    | cons x xs => simp [chunkFuel]

theorem chunkList_nil {α : Type} (bs : Nat) : chunkList bs ([] : List α) = [] := by
  unfold chunkList
  split
  · rfl
  · rfl

theorem mem_chunkList_props {α : Type} {bs : Nat} {xs c : List α}
    (hc : c ∈ chunkList bs xs) : c ≠ [] ∧ c ⊆ xs := by
  unfold chunkList at hc
  split at hc
  · simp at hc
  · exact ⟨chunkFuel_mem_ne_nil (Nat.pos_of_ne_zero (by assumption)) hc,
           chunkFuel_mem_subset hc⟩

theorem mem_batchIndices_sub {n bs : Nat} {dl : Bool} {c : List Nat}
    (hc : c ∈ batchIndices n bs dl) : c ∈ chunkList bs (List.range n) := by
  cases dl with
  | false => simpa [batchIndices] using hc
  | true =>
    rw [show batchIndices n bs true
          = (chunkList bs (List.range n)).filter (fun c => c.length == bs) from rfl] at hc
    exact List.mem_of_mem_filter hc

theorem batchIndices_flatten (n bs : Nat) (hbs : 0 < bs) :
    (batchIndices n bs false).flatten = List.range n := by
  unfold batchIndices
  simpa using chunkList_flatten bs (List.range n) hbs

theorem batchIndices_ne_nil (n bs : Nat) (hn : 0 < n) (hbs : 0 < bs) :
    batchIndices n bs false ≠ [] := by
  rw [show batchIndices n bs false = chunkList bs (List.range n) from rfl]
  unfold chunkList
  rw [if_neg (Nat.pos_iff_ne_zero.mp hbs)]
  apply chunkFuel_ne_nil
  · simp only [ne_eq, List.range_eq_nil]
    omega
  · simpa using hn

theorem mapM_eq_map_of_some {α β : Type} (f : α → Option β) (g : α → β)
    (l : List α) (h : ∀ a ∈ l, f a = some (g a)) :
    l.mapM f = some (l.map g) := by
  induction l with
  | nil => rfl
  | cons x xs ih =>
    rw [List.mapM_cons, h x (by simp), ih (fun a ha => h a (by simp [ha]))]
    rfl

theorem filterMap_getElem?_range_take {α : Type} (l : List α) (k : Nat) :
    (List.range k).filterMap (fun i => l[i]?) = l.take k := by
  induction k with
  | zero => simp
  | succ k ih =>
    rw [List.range_succ, List.filterMap_append, ih, List.take_succ]
    cases h : l[k]? <;> simp [h]

theorem filterMap_getElem?_range {α : Type} (l : List α) :
    (List.range l.length).filterMap (fun i => l[i]?) = l := by
  rw [filterMap_getElem?_range_take, List.take_length]

theorem length_filterMap_getElem? {α : Type} (l : List α) (idxs : List Nat)
    (h : ∀ i ∈ idxs, i < l.length) :
    (idxs.filterMap (fun i => l[i]?)).length = idxs.length := by
  induction idxs with
  | nil => rfl
  | cons i is ih =>
    rw [List.filterMap_cons, List.getElem?_eq_getElem (h i (by simp))]
    simpa using ih (fun j hj => h j (by simp [hj]))

theorem flatten_map_singleton {α : Type} (l : List α) :
    (l.map (fun a => [a])).flatten = l := by
  induction l with
  | nil => rfl
  | cons x xs ih => simp [ih]

theorem selectRows_range (n : Nat) (s : DataStruct) (h : uniform n s = true) :
    selectRows (List.range n) s = s := by
  induction s with
  | arr a =>
    cases a with
    | scalar v => simp [uniform] at h
    | tensor rows =>
      simp only [uniform, beq_iff_eq] at h
      subst h
      simp [selectRows, filterMap_getElem?_range]
  | lnil => rfl
  | dnil => rfl
  | lcons hd tl ih1 ih2 =>
    simp only [uniform, Bool.and_eq_true] at h
    simp [selectRows, ih1 h.1, ih2 h.2]
  | dcons k v t ih1 ih2 =>
    simp only [uniform, Bool.and_eq_true] at h
    simp [selectRows, ih1 h.1, ih2 h.2]

theorem dconcat2_selectRows (n : Nat) (s : DataStruct) (h : uniform n s = true)
    (i1 i2 : List Nat) :
    dconcat2 (selectRows i1 s) (selectRows i2 s) = some (selectRows (i1 ++ i2) s) := by
  induction s with
  | arr a =>
    cases a with
    | scalar v => simp [uniform] at h
    | tensor rows => simp [selectRows, dconcat2, List.filterMap_append]
  | lnil => rfl
  | dnil => rfl
  | lcons hd tl ih1 ih2 =>
    simp only [uniform, Bool.and_eq_true] at h
    simp [selectRows, dconcat2, ih1 h.1, ih2 h.2]
  | dcons k v t ih1 ih2 =>
    simp only [uniform, Bool.and_eq_true] at h
    simp [selectRows, dconcat2, ih1 h.1, ih2 h.2]

theorem foldlM_dconcat2_selectRows (n : Nat) (s : DataStruct)
    (h : uniform n s = true) (chunks : List (List Nat)) (acc : List Nat) :
    (chunks.map (fun c => selectRows c s)).foldlM dconcat2 (selectRows acc s) =
      some (selectRows (acc ++ chunks.flatten) s) := by
  induction chunks generalizing acc with
  | nil => simp
  | cons c cs ih =>
    simp only [List.map_cons, List.foldlM_cons]
    rw [dconcat2_selectRows n s h acc c]
    simpa [List.append_assoc] using ih (acc ++ c)

theorem numpy_collate_concat_selectRows (n : Nat) (s : DataStruct)
    (h : uniform n s = true) (chunks : List (List Nat)) (hne : chunks ≠ []) :
    numpy_collate_concat (chunks.map (fun c => selectRows c s)) =
      some (selectRows chunks.flatten s) := by
  cases chunks with
  | nil => exact absurd rfl hne
  | cons c cs =>
    simp only [List.map_cons, numpy_collate_concat]
    simpa using foldlM_dconcat2_selectRows n s h cs c

theorem get_dataset_item_eq_itemAt (n : Nat) (s : DataStruct) (i : Nat)
    (h : uniform n s = true) (hi : i < n) :
    get_dataset_item s i = some (itemAt s i) := by
  induction s with
  | arr a =>
    cases a with
    | scalar v => simp [uniform] at h
    | tensor rows =>
      simp only [uniform, beq_iff_eq] at h
      subst h
      simp [get_dataset_item, itemAt, List.getElem?_eq_getElem hi,
            List.getD_eq_getElem?_getD]
  | lnil => rfl
  | dnil => rfl
  | lcons hd tl ih1 ih2 =>
    simp only [uniform, Bool.and_eq_true] at h
    simp [get_dataset_item, itemAt, ih1 h.1, ih2 h.2]
  | dcons k v t ih1 ih2 =>
    simp only [uniform, Bool.and_eq_true] at h
    simp [get_dataset_item, itemAt, ih1 h.1, ih2 h.2]

theorem unsqueeze_itemAt (n : Nat) (s : DataStruct) (i : Nat)
    (h : uniform n s = true) (hi : i < n) :
    unsqueeze (itemAt s i) = selectRows [i] s := by
  induction s with
  | arr a =>
    cases a with
    | scalar v => simp [uniform] at h
    | tensor rows =>
      simp only [uniform, beq_iff_eq] at h
      subst h
      simp [itemAt, unsqueeze, selectRows, List.filterMap_cons,
            List.getElem?_eq_getElem hi, List.getD_eq_getElem?_getD]
  | lnil => rfl
  | dnil => rfl
  | lcons hd tl ih1 ih2 =>
    simp only [uniform, Bool.and_eq_true] at h
    simp [itemAt, unsqueeze, selectRows, ih1 h.1, ih2 h.2]
  | dcons k v t ih1 ih2 =>
    simp only [uniform, Bool.and_eq_true] at h
    simp [itemAt, unsqueeze, selectRows, ih1 h.1, ih2 h.2]

theorem batch_collate_selectRows (n : Nat) (s : DataStruct)
    (h : uniform n s = true) (idxs : List Nat)
    (hb : ∀ i ∈ idxs, i < n) (hne : idxs ≠ []) :
    (idxs.mapM (fun i => get_dataset_item s i) >>= numpy_collate) =
      some (selectRows idxs s) := by
  rw [mapM_eq_map_of_some _ (fun i => itemAt s i) _
      (fun i hi => get_dataset_item_eq_itemAt n s i h (hb i hi))]
  show numpy_collate (idxs.map fun i => itemAt s i) = _
  unfold numpy_collate
  rw [List.map_map]
  simp only [Function.comp_def]
  rw [List.map_congr_left (fun i hi => unsqueeze_itemAt n s i h (hb i hi))]
  rw [show (idxs.map fun i => selectRows [i] s)
        = (idxs.map fun i => [i]).map (fun c => selectRows c s) by
      rw [List.map_map]; rfl]
  rw [numpy_collate_concat_selectRows n s h _ (by simpa using hne)]
  rw [flatten_map_singleton]

theorem uniform_selectRows (n : Nat) (s : DataStruct) (idxs : List Nat)
    (h : uniform n s = true) (hb : ∀ i ∈ idxs, i < n) :
    uniform idxs.length (selectRows idxs s) = true := by
  induction s with
  | arr a =>
    cases a with
    | scalar v => simp [uniform] at h
    | tensor rows =>
      simp only [uniform, beq_iff_eq] at h
      subst h
      simp [selectRows, uniform, length_filterMap_getElem? rows idxs hb]
  | lnil => rfl
  | dnil => rfl
  | lcons hd tl ih1 ih2 =>
    simp only [uniform, Bool.and_eq_true] at h
    simp [selectRows, uniform, ih1 h.1, ih2 h.2]
  | dcons k v t ih1 ih2 =>
    simp only [uniform, Bool.and_eq_true] at h
    simp [selectRows, uniform, ih1 h.1, ih2 h.2]

theorem preloaded_batch_iter_selectRows (s : DataStruct) (n bs : Nat) (dl : Bool)
    (h : uniform n s = true) :
    PreloadedDataset.batch_iter ⟨s, n⟩ bs dl =
      some ((batchIndices n bs dl).map (fun c => selectRows c s)) := by
  unfold PreloadedDataset.batch_iter
  apply mapM_eq_map_of_some
  intro c hc
  have hmem := mem_batchIndices_sub hc
  have hprops := mem_chunkList_props hmem
  apply batch_collate_selectRows n s h
  · intro i hi
    exact List.mem_range.mp (hprops.2 hi)
  · exact hprops.1

theorem uniform_of_lens (s : DataStruct) (lens : List Nat) (n : Nat)
    (h : get_dataset_lens s = some lens) (hall : ∀ x ∈ lens, x = n) :
    uniform n s = true := by
  induction s generalizing lens with
  | arr a =>
    cases a with
    | scalar v => simp [get_dataset_lens] at h
    | tensor rows =>
      simp only [get_dataset_lens, Option.some.injEq] at h
      subst h
      simp [uniform, hall rows.length (by simp)]
  | lnil => rfl
  | dnil => rfl
  | lcons hd tl ih1 ih2 =>
    simp only [get_dataset_lens, bind, Option.bind_eq_some] at h
    obtain ⟨l1, h1, l2, h2, heq⟩ := h
    simp only [Option.pure_def, Option.some.injEq] at heq
    subst heq
    simp only [uniform, Bool.and_eq_true]
    exact ⟨ih1 l1 h1 (fun x hx => hall x (by simp [hx])),
           ih2 l2 h2 (fun x hx => hall x (by simp [hx]))⟩
  | dcons k v t ih1 ih2 =>
    simp only [get_dataset_lens, bind, Option.bind_eq_some] at h
    obtain ⟨l1, h1, l2, h2, heq⟩ := h
    simp only [Option.pure_def, Option.some.injEq] at heq
    subst heq
    simp only [uniform, Bool.and_eq_true]
    exact ⟨ih1 l1 h1 (fun x hx => hall x (by simp [hx])),
           ih2 l2 h2 (fun x hx => hall x (by simp [hx]))⟩

theorem init_ok_spec (data : DataStruct) (pd : PreloadedDataset)
    (h : PreloadedDataset.init data = .ok pd) :
    pd.data = data ∧ uniform pd.n data = true := by
  cases hl : get_dataset_lens data with
  | none =>
    unfold PreloadedDataset.init at h
    rw [hl] at h
    have h2 : (Except.error KipoiError.StructuralMismatch :
        Except KipoiError PreloadedDataset) = Except.ok pd := h
    exact absurd h2 (by simp)
  | some lens =>
    unfold PreloadedDataset.init at h
    rw [hl] at h
    have h2 : (if (lens.dedup.length == 1) = true
        then (Except.ok ⟨data, lens.headD 0⟩ : Except KipoiError PreloadedDataset)
        else Except.error KipoiError.DimensionMismatch) = Except.ok pd := h
    by_cases hdl : lens.dedup.length = 1
    · rw [if_pos (by simpa using hdl)] at h2
      obtain ⟨m, hm⟩ := List.length_eq_one.mp hdl
      have hall : ∀ x ∈ lens, x = m := by
        intro x hx
        have hmem : x ∈ lens.dedup := List.mem_dedup.mpr hx
        rw [hm] at hmem
        simpa using hmem
      have hne : lens ≠ [] := by
        intro hnil
        rw [hnil] at hm
        simp [List.dedup_nil] at hm
      have hhead : lens.headD 0 = m := by
        cases lens with
        | nil => exact absurd rfl hne
        | cons y ys => exact hall y (by simp)
      cases h2
      refine ⟨rfl, ?_⟩
      rw [show (⟨data, lens.headD 0⟩ : PreloadedDataset).n = lens.headD 0 from rfl, hhead]
      exact uniform_of_lens data lens m hl hall
    · rw [if_neg (by simpa using hdl)] at h2
      exact absurd h2 (by simp)

theorem get_dataset_item_unsqueeze (s : DataStruct) :
    get_dataset_item (unsqueeze s) 0 = some s := by
  induction s with
  | arr a => rfl
  | lnil => rfl
  | dnil => rfl
  | lcons hd tl ih1 ih2 => simp [unsqueeze, get_dataset_item, ih1, ih2]
  | dcons k v t ih1 ih2 => simp [unsqueeze, get_dataset_item, ih1, ih2]

/-! ### Concrete example data (used by the witnesses) -/

/-- Ten scalar rows `0, ..., 9`. -/
def rows10 : List Arr := (List.range 10).map (fun i => Arr.scalar (Int.ofNat i))

/-- Nine scalar rows `0, ..., 8`. -/
def rows9 : List Arr := (List.range 9).map (fun i => Arr.scalar (Int.ofNat i))

/-- A 10-sample structure: a dict with `inputs` and `targets` leaves of
leading dimension 10. -/
def sample10 : DataStruct :=
  .dcons "inputs" (.arr (.tensor rows10))
    (.dcons "targets" (.arr (.tensor rows10)) .dnil)

/-- A structure whose two leaves have leading dimensions 10 and 9. -/
def mismatch10x9 : DataStruct :=
  .dcons "inputs" (.arr (.tensor rows10))
    (.dcons "targets" (.arr (.tensor rows9)) .dnil)

/-! ### Claim theorems -/

/-- C7: sample-collation / extraction round trip — for every sample `s`,
collating the single-element sequence `[s]` into a batch and then extracting
index 0 from that batch (`PreloadedDataset.__getitem__`-style indexed
extraction) returns a structure equal to `s`. -/
theorem collate_single_then_extract_roundtrip (s : DataStruct) :
    (numpy_collate [s]).bind (fun b => get_dataset_item b 0) = some s := by
  have h1 : numpy_collate [s] = some (unsqueeze s) := rfl
  rw [h1, Option.some_bind]
  exact get_dataset_item_unsqueeze s

/-- C1: for a successfully constructed preloaded dataset, `load_all` returns
the stored structure directly — equal to the structure the production function
returned — for every kwargs value, with no re-aggregation; moreover the
inherited re-aggregation path (`BaseDataLoader.load_all`, concatenating every
batch of `batch_iter`) reproduces exactly that structure, and for the
indexed-dataset variant `load_all` is precisely the concatenation of all
batches yielded by `batch_iter`. -/
theorem preloaded_load_all_direct (data : DataStruct) (pd : PreloadedDataset)
    (bs : Nat) (hinit : PreloadedDataset.init data = .ok pd)
    (hbs : 0 < bs) (hn : 0 < pd.n) :
    (∀ kwargs, pd.load_all kwargs = data) ∧
    pd.base_load_all bs false = some data ∧
    (∀ (d : Dataset) (bs2 : Nat),
      Dataset.load_all d bs2 = d.batch_iter bs2 false >>= numpy_collate_concat) := by
  obtain ⟨hdata, hunif⟩ := init_ok_spec data pd hinit
  cases pd with
  | mk pdata pn =>
    simp only at hdata hunif hn
    subst hdata
    refine ⟨fun _ => rfl, ?_, fun _ _ => rfl⟩
    unfold PreloadedDataset.base_load_all
    rw [preloaded_batch_iter_selectRows pdata pn bs false hunif]
    show numpy_collate_concat
        ((batchIndices pn bs false).map (fun c => selectRows c pdata)) = some pdata
    rw [numpy_collate_concat_selectRows pn pdata hunif _
        (batchIndices_ne_nil pn bs hn hbs)]
    rw [batchIndices_flatten pn bs hbs]
    rw [selectRows_range pn pdata hunif]

theorem preloaded_load_all_direct_witness :
    PreloadedDataset.init sample10 = .ok ⟨sample10, 10⟩ ∧
    (∀ kwargs, PreloadedDataset.load_all ⟨sample10, 10⟩ kwargs = sample10) ∧
    PreloadedDataset.base_load_all ⟨sample10, 10⟩ 4 false = some sample10 :=
  have h := preloaded_load_all_direct sample10 ⟨sample10, 10⟩ 4 rfl
    (by decide) (by decide)
  ⟨rfl, h.1, h.2.1⟩

/-- C2: over a 10-sample preloaded dataset, `batch_iter(batch_size=4,
shuffle=False, drop_last=False)` yields exactly three batches in index order,
batch i covering indices 4i..4i+size-1 — the index batches are
[0..3], [4..7], [8,9] — of sizes 4, 4, 2 (every leaf of each batch has that
leading dimension); with `drop_last=True` only the two full batches of size 4
are yielded. -/
theorem preloaded_batch_iter_4_4_2 (data : DataStruct) (pd : PreloadedDataset)
    (hinit : PreloadedDataset.init data = .ok pd) (hn : pd.n = 10) :
    batchIndices 10 4 false = [[0, 1, 2, 3], [4, 5, 6, 7], [8, 9]] ∧
    batchIndices 10 4 true = [[0, 1, 2, 3], [4, 5, 6, 7]] ∧
    pd.batch_iter 4 false = some [selectRows [0, 1, 2, 3] data,
      selectRows [4, 5, 6, 7] data, selectRows [8, 9] data] ∧
    pd.batch_iter 4 true = some [selectRows [0, 1, 2, 3] data,
      selectRows [4, 5, 6, 7] data] ∧
    uniform 4 (selectRows [0, 1, 2, 3] data) = true ∧
    uniform 4 (selectRows [4, 5, 6, 7] data) = true ∧
    uniform 2 (selectRows [8, 9] data) = true := by
  obtain ⟨hdata, hunif⟩ := init_ok_spec data pd hinit
  cases pd with
  | mk pdata pn =>
    simp only at hdata hunif hn
    subst hdata
    subst hn
    refine ⟨by decide, by decide, ?_, ?_, ?_, ?_, ?_⟩
    · rw [preloaded_batch_iter_selectRows pdata 10 4 false hunif]
      rw [show batchIndices 10 4 false = [[0, 1, 2, 3], [4, 5, 6, 7], [8, 9]]
          from by decide]
      rfl
    · rw [preloaded_batch_iter_selectRows pdata 10 4 true hunif]
      rw [show batchIndices 10 4 true = [[0, 1, 2, 3], [4, 5, 6, 7]]
          from by decide]
      rfl
    · exact uniform_selectRows 10 pdata [0, 1, 2, 3] hunif (by decide)
    · exact uniform_selectRows 10 pdata [4, 5, 6, 7] hunif (by decide)
    · exact uniform_selectRows 10 pdata [8, 9] hunif (by decide)

theorem preloaded_batch_iter_4_4_2_witness :
    PreloadedDataset.init sample10 = .ok ⟨sample10, 10⟩ ∧
    PreloadedDataset.batch_iter ⟨sample10, 10⟩ 4 false =
      some [selectRows [0, 1, 2, 3] sample10, selectRows [4, 5, 6, 7] sample10,
        selectRows [8, 9] sample10] ∧
    PreloadedDataset.batch_iter ⟨sample10, 10⟩ 4 true =
      some [selectRows [0, 1, 2, 3] sample10, selectRows [4, 5, 6, 7] sample10] ∧
    uniform 4 (selectRows [0, 1, 2, 3] sample10) = true ∧
    uniform 2 (selectRows [8, 9] sample10) = true :=
  have h := preloaded_batch_iter_4_4_2 sample10 ⟨sample10, 10⟩ rfl rfl
  ⟨rfl, h.2.2.1, h.2.2.2.1, h.2.2.2.2.1, h.2.2.2.2.2.2⟩

/-- C3: constructing a preloaded dataset from leaves that disagree on the
leading-dimension length (more than one distinct length observed) fails with
`DimensionMismatch`; when all leaves share the single length `n`, construction
succeeds and `len(dataset) = n`. -/
theorem preloaded_init_dimension_check (data : DataStruct) (lens : List Nat)
    (n : Nat) (hlens : get_dataset_lens data = some lens) :
    (1 < lens.dedup.length →
      PreloadedDataset.init data = .error .DimensionMismatch) ∧
    (lens.dedup = [n] →
      PreloadedDataset.init data = .ok ⟨data, n⟩ ∧
      PreloadedDataset.len ⟨data, n⟩ = n) := by
  constructor
  · intro hgt
    unfold PreloadedDataset.init
    rw [hlens]
    show (if (lens.dedup.length == 1) = true
        then (Except.ok ⟨data, lens.headD 0⟩ : Except KipoiError PreloadedDataset)
        else Except.error KipoiError.DimensionMismatch) = _
    rw [if_neg (by simp only [beq_iff_eq]; omega)]
  · intro hdl
    have hne : lens ≠ [] := by
      intro hnil
      rw [hnil] at hdl
      simp [List.dedup_nil] at hdl
    have hhead : lens.headD 0 = n := by
      cases lens with
      | nil => exact absurd rfl hne
      | cons y ys =>
        have hy : y ∈ (y :: ys).dedup := List.mem_dedup.mpr (by simp)
        rw [hdl] at hy
        simpa using hy
    refine ⟨?_, rfl⟩
    unfold PreloadedDataset.init
    rw [hlens]
    show (if (lens.dedup.length == 1) = true
        then (Except.ok ⟨data, lens.headD 0⟩ : Except KipoiError PreloadedDataset)
        else Except.error KipoiError.DimensionMismatch) = _
    rw [if_pos (by simp [hdl])]
    rw [hhead]

theorem preloaded_init_dimension_check_witness :
    get_dataset_lens mismatch10x9 = some [10, 9] ∧
    PreloadedDataset.init mismatch10x9 = .error .DimensionMismatch ∧
    get_dataset_lens sample10 = some [10, 10] ∧
    PreloadedDataset.init sample10 = .ok ⟨sample10, 10⟩ ∧
    PreloadedDataset.len ⟨sample10, 10⟩ = 10 :=
  have h1 := preloaded_init_dimension_check mismatch10x9 [10, 9] 0 rfl
  have h2 := preloaded_init_dimension_check sample10 [10, 10] 10 rfl
  ⟨rfl, h1.1 (by decide), rfl, (h2.2 (by decide)).1, (h2.2 (by decide)).2⟩

/-- Five scalar rows `0, ..., 4`. -/
def rows5 : List Arr := (List.range 5).map (fun i => Arr.scalar (Int.ofNat i))

/-- The single batch a 5-sample dataset yields at `batch_size=5`. -/
def batch5 : DataStruct :=
  .dcons "inputs" (.arr (.tensor rows5))
    (.dcons "targets" (.arr (.tensor rows5)) .dnil)

/-- C4: with `cycle=True`, `batch_train_iter` restarts the underlying batch
iteration indefinitely and never exhausts — the k-th element of the infinite
stream is the `(inputs, targets)` pair of the underlying batch at position
k mod (number of batches), the first pass reproduces the underlying iteration
in order, and the stream is periodic; with `cycle=False` the stream is exactly
one `(inputs, targets)` pair per underlying batch and terminates when the
batch source is exhausted (same length). -/
theorem batch_train_iter_cycle_semantics (batches : List DataStruct)
    (h : batches ≠ []) :
    (∀ k, batch_train_iter_cycle batches k =
      batches[k % batches.length]?.bind trainPair) ∧
    (∀ j, j < batches.length → batch_train_iter_cycle batches j =
      batches[j]?.bind trainPair) ∧
    (∀ k, batch_train_iter_cycle batches (k + batches.length) =
      batch_train_iter_cycle batches k) ∧
    batch_train_iter_nocycle batches = batches.map trainPair ∧
    (batch_train_iter_nocycle batches).length = batches.length := by
  have hemp : batches.isEmpty = false := by
    cases batches with
    | nil => exact absurd rfl h
    | cons b bs => rfl
  have key : ∀ k, batch_train_iter_cycle batches k =
      batches[k % batches.length]?.bind trainPair := by
    intro k
    unfold batch_train_iter_cycle iterable_cycle
    rw [hemp]
    simp
  refine ⟨key, ?_, ?_, rfl, by simp [batch_train_iter_nocycle]⟩
  · intro j hj
    rw [key j, Nat.mod_eq_of_lt hj]
  · intro k
    rw [key k, key (k + batches.length), Nat.add_mod_right]

theorem batch_train_iter_cycle_semantics_witness :
    batch_train_iter_cycle [batch5] 0 =
      some (.arr (.tensor rows5), .arr (.tensor rows5)) ∧
    batch_train_iter_cycle [batch5] 1 =
      some (.arr (.tensor rows5), .arr (.tensor rows5)) ∧
    batch_train_iter_cycle [batch5] 2 =
      some (.arr (.tensor rows5), .arr (.tensor rows5)) ∧
    (batch_train_iter_nocycle [batch5]).length = 1 :=
  have h := batch_train_iter_cycle_semantics [batch5] (by simp)
  ⟨(h.1 0).trans rfl, (h.1 1).trans rfl, (h.1 2).trans rfl, h.2.2.2.2⟩

theorem functions_sub_available (t : String)
    (h : DATALOADERS_AS_FUNCTIONS.contains t = true) :
    AVAILABLE_DATALOADERS.contains t = true := by
  have hmem : t ∈ DATALOADERS_AS_FUNCTIONS := by simpa using h
  simp only [DATALOADERS_AS_FUNCTIONS, List.mem_cons, List.not_mem_nil,
    or_false] at hmem
  rcases hmem with rfl | rfl | rfl <;> decide

/-- C5: during dynamic loading of a known variant, if the implementation's
actual parameter-name set does not equal (as a set, no subset or superset
accepted) the specification's declared argument-name set, loading fails with
`ArgumentMismatch` carrying both sets, before any adaptation, subclass check
or instantiation; if the sets are equal the check passes — the outcome is
never an `ArgumentMismatch`. -/
theorem dataloader_argument_check (dl : DataLoaderDescription)
    (c : CustomLoaderCandidate)
    (htype : AVAILABLE_DATALOADERS.contains dl.type = true) :
    (setEq c.argNames dl.args = false →
      get_dataloader_factory dl c =
        .error (.ArgumentMismatch c.argNames dl.args)) ∧
    (setEq c.argNames dl.args = true →
      ∀ a b, get_dataloader_factory dl c ≠ .error (.ArgumentMismatch a b)) := by
  constructor
  · intro hne
    unfold get_dataloader_factory
    rw [if_neg (by simpa using htype), if_pos (by simp [hne])]
  · intro heq a b
    unfold get_dataloader_factory
    rw [if_neg (by simpa using htype), if_neg (by simp [heq])]
    split
    · split
      · simp
      · simp
    · split
      · simp
      · simp

theorem dataloader_argument_check_witness :
    get_dataloader_factory ⟨"Dataset", ["a", "b"]⟩ ⟨["a", "c"], false, ["Dataset"]⟩ =
      .error (.ArgumentMismatch ["a", "c"] ["a", "b"]) ∧
    get_dataloader_factory ⟨"Dataset", ["a", "b"]⟩ ⟨["b", "a"], false, ["Dataset"]⟩ ≠
      .error (.ArgumentMismatch ["b", "a"] ["a", "b"]) :=
  have h1 := dataloader_argument_check ⟨"Dataset", ["a", "b"]⟩
    ⟨["a", "c"], false, ["Dataset"]⟩ (by decide)
  have h2 := dataloader_argument_check ⟨"Dataset", ["a", "b"]⟩
    ⟨["b", "a"], false, ["Dataset"]⟩ (by decide)
  ⟨h1.1 (by decide), h2.2 (by decide) ["b", "a"] ["a", "b"]⟩

/-- C6: dynamic-load type validation — a declared variant name outside the
known variant set fails with `UnknownVariant`; for a function-derived variant
(if the argument check passed) a candidate that is a plain function is adapted
via the variant's `from_fn` binding and the bound class is returned (no
instance created), while a non-function candidate fails with
`ContractMismatch`; for any other known variant a candidate subclassing the
declared contract class yields the bound class, and one that does not fails
with `ContractMismatch`. -/
theorem dataloader_type_validation (dl : DataLoaderDescription)
    (c : CustomLoaderCandidate) :
    (AVAILABLE_DATALOADERS.contains dl.type = false →
      get_dataloader_factory dl c = .error (.UnknownVariant dl.type)) ∧
    (setEq c.argNames dl.args = true →
      (DATALOADERS_AS_FUNCTIONS.contains dl.type = true →
        (c.isFunction = true →
          get_dataloader_factory dl c = .ok ⟨c, true, dl.type, dl.args⟩) ∧
        (c.isFunction = false →
          get_dataloader_factory dl c = .error (.ContractMismatch dl.type))) ∧
      (AVAILABLE_DATALOADERS.contains dl.type = true →
       DATALOADERS_AS_FUNCTIONS.contains dl.type = false →
        (c.baseClasses.contains dl.type = true →
          get_dataloader_factory dl c = .ok ⟨c, false, dl.type, dl.args⟩) ∧
        (c.baseClasses.contains dl.type = false →
          get_dataloader_factory dl c = .error (.ContractMismatch dl.type)))) := by
  refine ⟨?_, fun hargs => ⟨fun hfn => ⟨?_, ?_⟩, fun hav hnfn => ⟨?_, ?_⟩⟩⟩
  · intro hna
    unfold get_dataloader_factory
    rw [if_pos (by simpa using hna)]
  · intro hc
    unfold get_dataloader_factory
    rw [if_neg (by simpa using functions_sub_available dl.type hfn),
        if_neg (by simp [hargs]), if_pos hfn, if_pos hc]
  · intro hc
    unfold get_dataloader_factory
    rw [if_neg (by simpa using functions_sub_available dl.type hfn),
        if_neg (by simp [hargs]), if_pos hfn, if_neg (by simp [hc])]
  · intro hc
    unfold get_dataloader_factory
    rw [if_neg (by simpa using hav), if_neg (by simp [hargs]),
        if_neg (by simpa using hnfn), if_pos hc]
  · intro hc
    unfold get_dataloader_factory
    rw [if_neg (by simpa using hav), if_neg (by simp [hargs]),
        if_neg (by simpa using hnfn), if_neg (by simpa using hc)]

theorem dataloader_type_validation_witness :
    get_dataloader_factory ⟨"FancyLoader", ["a"]⟩ ⟨["a"], false, ["Dataset"]⟩ =
      .error (.UnknownVariant "FancyLoader") ∧
    get_dataloader_factory ⟨"SampleGenerator", ["a"]⟩ ⟨["a"], true, []⟩ =
      .ok ⟨⟨["a"], true, []⟩, true, "SampleGenerator", ["a"]⟩ ∧
    get_dataloader_factory ⟨"SampleGenerator", ["a"]⟩ ⟨["a"], false, []⟩ =
      .error (.ContractMismatch "SampleGenerator") ∧
    get_dataloader_factory ⟨"Dataset", ["a"]⟩ ⟨["a"], false, ["Dataset"]⟩ =
      .ok ⟨⟨["a"], false, ["Dataset"]⟩, false, "Dataset", ["a"]⟩ ∧
    get_dataloader_factory ⟨"Dataset", ["a"]⟩ ⟨["a"], false, ["BatchDataset"]⟩ =
      .error (.ContractMismatch "Dataset") :=
  have h1 := dataloader_type_validation ⟨"FancyLoader", ["a"]⟩
    ⟨["a"], false, ["Dataset"]⟩
  have h2 := dataloader_type_validation ⟨"SampleGenerator", ["a"]⟩ ⟨["a"], true, []⟩
  have h3 := dataloader_type_validation ⟨"SampleGenerator", ["a"]⟩ ⟨["a"], false, []⟩
  have h4 := dataloader_type_validation ⟨"Dataset", ["a"]⟩ ⟨["a"], false, ["Dataset"]⟩
  have h5 := dataloader_type_validation ⟨"Dataset", ["a"]⟩
    ⟨["a"], false, ["BatchDataset"]⟩
  ⟨h1.1 (by decide),
   ((h2.2 (by decide)).1 (by decide)).1 (by decide),
   ((h3.2 (by decide)).1 (by decide)).2 (by decide),
   ((h4.2 (by decide)).2 (by decide) (by decide)).1 (by decide),
   ((h5.2 (by decide)).2 (by decide) (by decide)).2 (by decide)⟩

/-- C8: `from_fn` and the metadata binding of `get_dataloader_factory` mutate
the shared class object and return that same object — after two successive
loads that bind different functions and metadata onto the same class, the
reference obtained from the earlier load is the very class reference the later
load used, and dereferencing it observes the later load's function and
metadata. -/
theorem from_fn_metadata_shared_mutation (h : ClassHeap) (cls f1 f2 : Nat)
    (m1 m2 : DLMeta) (hcls : cls < h.length) :
    (load_function_variant h cls f1 m1).2 = cls ∧
    (load_function_variant (load_function_variant h cls f1 m1).1 cls f2 m2).2 = cls ∧
    ((load_function_variant (load_function_variant h cls f1 m1).1 cls f2 m2).1.getD
        ((load_function_variant h cls f1 m1).2) {}).data_fn = some f2 ∧
    ((load_function_variant (load_function_variant h cls f1 m1).1 cls f2 m2).1.getD
        ((load_function_variant h cls f1 m1).2) {}).tpe = some m2.tpe ∧
    ((load_function_variant (load_function_variant h cls f1 m1).1 cls f2 m2).1.getD
        ((load_function_variant h cls f1 m1).2) {}).args = some m2.args := by
  refine ⟨rfl, rfl, ?_, ?_, ?_⟩ <;>
    simp [load_function_variant, from_fn, bind_metadata,
      List.getD_eq_getElem?_getD, List.getElem?_set_self, List.length_set, hcls]

theorem from_fn_metadata_shared_mutation_witness :
    (load_function_variant [{}] 0 1 ⟨"PreloadedDataset", ["x"], 7⟩).2 = 0 ∧
    ((load_function_variant
        (load_function_variant [{}] 0 1 ⟨"PreloadedDataset", ["x"], 7⟩).1
        0 2 ⟨"SampleGenerator", ["y"], 8⟩).1.getD 0 {}).data_fn = some 2 ∧
    ((load_function_variant
        (load_function_variant [{}] 0 1 ⟨"PreloadedDataset", ["x"], 7⟩).1
        0 2 ⟨"SampleGenerator", ["y"], 8⟩).1.getD 0 {}).tpe =
      some "SampleGenerator" :=
  have h := from_fn_metadata_shared_mutation [{}] 0 1 2
    ⟨"PreloadedDataset", ["x"], 7⟩ ⟨"SampleGenerator", ["y"], 8⟩ (by decide)
  ⟨h.1, h.2.2.1, h.2.2.2.1⟩

/-- C9: `PreloadedDataset.from_data(data)` invokes `cls.from_data_fn`, an
attribute defined nowhere on the class — the binder defined at line 84 is
named `from_fn` — so for every input the call raises `AttributeError` and the
construct-directly-from-data entry point is unusable. -/
theorem from_data_always_attribute_error (data : DataStruct) :
    PreloadedDataset.from_data data = .error "AttributeError: from_data_fn" ∧
    PreloadedDataset_attrs.contains "from_data_fn" = false ∧
    PreloadedDataset_attrs.contains "from_fn" = true :=
  ⟨rfl, by decide, by decide⟩

/-- C10: `SampleIterator` and `BatchIterator` instances are single exhaustible
streams — once one `batch_iter` pass has consumed the instance, every later
`batch_iter` call on it yields no batches — while `SampleGenerator` and
`BatchGenerator` call their bound production function anew inside `__iter__`,
so `batch_iter` leaves the instance unchanged and a second call produces the
same fresh stream of batches again. -/
theorem iterator_exhaustion_vs_generator_restart
    (sit : SampleIteratorState) (bit : BatchIteratorState)
    (sg : SampleGeneratorState) (bg : BatchGeneratorState)
    (bs bs2 : Nat) (hbs : 0 < bs) :
    ((sit.batch_iter bs).2.batch_iter bs2).1 = [] ∧
    (bit.batch_iter.2.batch_iter).1 = [] ∧
    (sg.batch_iter bs).2 = sg ∧
    ((sg.batch_iter bs).2.batch_iter bs).1 = (sg.batch_iter bs).1 ∧
    bg.batch_iter.2 = bg ∧
    (bg.batch_iter.2.batch_iter).1 = bg.batch_iter.1 := by
  refine ⟨?_, rfl, rfl, rfl, rfl, rfl⟩
  have h2 : (sit.batch_iter bs).2.remaining = [] := by
    show sit.remaining.drop (chunkList bs sit.remaining).flatten.length = []
    rw [chunkList_flatten bs sit.remaining hbs]
    simp
  show ((chunkList bs2 ((sit.batch_iter bs).2.remaining)).map numpy_collate) = []
  rw [h2, chunkList_nil]
  rfl

theorem iterator_exhaustion_vs_generator_restart_witness :
    ((SampleIteratorState.batch_iter ⟨[DataStruct.lnil]⟩ 1).2.batch_iter 1).1 = [] ∧
    ((BatchIteratorState.batch_iter ⟨[DataStruct.lnil]⟩).2.batch_iter).1 = [] ∧
    (SampleGeneratorState.batch_iter ⟨fun _ => [DataStruct.lnil]⟩ 1).2 =
      ⟨fun _ => [DataStruct.lnil]⟩ :=
  have h := iterator_exhaustion_vs_generator_restart ⟨[DataStruct.lnil]⟩
    ⟨[DataStruct.lnil]⟩ ⟨fun _ => [DataStruct.lnil]⟩ ⟨fun _ => [DataStruct.lnil]⟩
    1 1 (by decide)
  ⟨h.1, h.2.1, h.2.2.1⟩
